import Mathlib

/-
Verification of the sizing engine of the solar-sizing app
(src/model/utils.py and src/model/streamlit_app.py).

Python floats are modelled as rationals. Python raising ZeroDivisionError on
float division by a zero denominator is modelled by returning an
Except.error. Python strings are modelled as lists of characters so that
character-wise operations (str.lower, single-character str.replace) can be
stated and evaluated directly.
-/

namespace SolarSizing

/-- One appliance row after the numeric cleanup of streamlit_app.py lines
200-223: the four numeric columns are rationals, the critical flag a Bool. -/
structure LoadItem where
  power_w : ℚ
  qty : ℚ
  hours_per_day : ℚ
  surge_w : ℚ
  critical : Bool
deriving DecidableEq

/-- A raw numeric cell before cleanup. `none` models a missing value or text
that pandas to_numeric with errors=coerce turns into NaN; `some q` a value
that parses to the number q. -/
def normalize_numeric (c : Option ℚ) : ℚ :=
  -- pd.to_numeric(loads[col], errors='coerce').fillna(0.0)  (line 203)
  c.getD 0

/-- A raw cell of the critical column: missing (NaN), a Python bool, or text. -/
inductive RawCell where
  | missing : RawCell
  | boolVal (b : Bool) : RawCell
  | strVal (s : List Char) : RawCell
deriving DecidableEq

/-- The keys mapped to True by the map on line 216-219 of streamlit_app.py. -/
def trueKeys : List (List Char) :=
  [['t','r','u','e'], ['y','e','s'], ['1']]

/-- The keys mapped to False by the same map. -/
def falseKeys : List (List Char) :=
  [['f','a','l','s','e'], ['n','o'], ['0']]

/-- Normalization of the critical column (streamlit_app.py lines 213-219):
fillna(False), then astype(str).str.lower(), then the map with a final
fillna(False) for values outside both key sets. -/
def normalize_critical (c : RawCell) : Bool :=
  -- loads["critical"].fillna(False)
  let c2 := match c with
    | .missing => RawCell.boolVal false
    | x => x
  -- .astype(str).str.lower()  (str(True) = "True", str(False) = "False")
  let s := (match c2 with
    | .boolVal true => ['T','r','u','e']
    | .boolVal false => ['F','a','l','s','e']
    | .strVal t => t
    | .missing => []).map Char.toLower
  -- .map({... : True, ... : False}).fillna(False)
  if s ∈ trueKeys then true
  else if s ∈ falseKeys then false
  else false

/-- Daily energy of one row: power_w * qty * hours_per_day (line 207). -/
def energy_wh (x : LoadItem) : ℚ := x.power_w * x.qty * x.hours_per_day

/-- Sum of energy_wh over all rows (line 211). -/
def E_total (loads : List LoadItem) : ℚ := (loads.map energy_wh).sum

/-- Sum of energy_wh over the rows whose critical flag is set (line 223). -/
def E_critical (loads : List LoadItem) : ℚ :=
  ((loads.filter (fun x => x.critical)).map energy_wh).sum

/-- recommended_system (utils.py lines 81-85, streamlit_app.py lines 226-230).
The function body performs two unguarded float divisions; a zero denominator
raises ZeroDivisionError in Python, modelled as an error value here. -/
def recommended_system (E_wh ps_h eta_inv eta_batt eta_misc safety : ℚ) :
    Except String (ℚ × ℚ) :=
  if eta_inv * eta_batt = 0 then .error "ZeroDivisionError"
  else if ps_h * eta_misc = 0 then .error "ZeroDivisionError"
  else
    -- E_from_panels = E_wh / (eta_inv * eta_batt)
    -- pv_watts = E_from_panels / (ps_h * eta_misc); pv_watts *= safety
    .ok (E_wh / (eta_inv * eta_batt),
         E_wh / (eta_inv * eta_batt) / (ps_h * eta_misc) * safety)

/-- battery_req (utils.py lines 88-91, streamlit_app.py lines 240-243):
wh = (E_wh * autonomy) / eta_batt; ah = wh / Vsys. -/
def battery_req (E_wh autonomy eta_batt Vsys : ℚ) : Except String (ℚ × ℚ) :=
  if eta_batt = 0 then .error "ZeroDivisionError"
  else if Vsys = 0 then .error "ZeroDivisionError"
  else .ok (E_wh * autonomy / eta_batt, E_wh * autonomy / eta_batt / Vsys)

/-- Battery module count (streamlit_app.py lines 251-255). -/
def num_batt_modules (bat_wh usable_module_wh : ℚ) : ℤ :=
  if usable_module_wh > 0 then ⌈bat_wh / usable_module_wh⌉ else 0

/-- Panel count (streamlit_app.py lines 259-263). -/
def num_panels (pv_watts preferred_panel_w : ℚ) : ℤ :=
  if preferred_panel_w > 0 then ⌈pv_watts / preferred_panel_w⌉ else 0

/-- Instantaneous steady draw: sum of power_w * qty over all rows (line 268). -/
def continuous_load (loads : List LoadItem) : ℚ :=
  (loads.map (fun x => x.power_w * x.qty)).sum

/-- Per-row net surge: max(0, surge_w - power_w * qty) (lines 270-272). -/
def net_surge (x : LoadItem) : ℚ := max 0 (x.surge_w - x.power_w * x.qty)

/-- Maximum of the net_surge column (line 273). pandas Series.max is the
maximum of the values; since every net_surge is ≥ 0 by construction, folding
max from 0 agrees with it on every non-empty list. -/
def max_net_surge (loads : List LoadItem) : ℚ :=
  (loads.map net_surge).foldl max 0

/-- Inverter surge rating (lines 267-281): ceil(continuous_load +
max_net_surge) on a non-empty list, 0 on the empty list. -/
def inverter_surge (loads : List LoadItem) : ℤ :=
  if loads.isEmpty then 0
  else ⌈continuous_load loads + max_net_surge loads⌉

/-- Inverter continuous rating (line 283): ceil(continuous_load * 1.25). -/
def inverter_continuous (loads : List LoadItem) : ℤ :=
  ⌈continuous_load loads * (5/4)⌉

/-- Charge controller current (lines 286-289). -/
def controller_current (pv_watts_full system_voltage : ℚ) : ℤ :=
  if system_voltage > 0 then ⌈pv_watts_full / system_voltage / (9/10)⌉ else 0

/-- The user-chosen parameters read by the computation (streamlit_app.py
lines 151-184). -/
structure Config where
  system_voltage : ℚ
  ps_h : ℚ
  autonomy_days : ℚ
  usable_dod : ℚ
  eta_inv : ℚ
  eta_batt_roundtrip : ℚ
  eta_misc : ℚ
  safety_margin : ℚ
  preferred_batt_ah : ℚ
  preferred_panel_w : ℚ
deriving DecidableEq

/-- The sizing outputs of streamlit_app.py lines 206-289. -/
structure SizingResult where
  E_total : ℚ
  E_critical : ℚ
  pv_watts_full : ℚ
  pv_watts_crit : ℚ
  bat_wh_full : ℚ
  bat_ah_full : ℚ
  bat_wh_crit : ℚ
  bat_ah_crit : ℚ
  num_batt_full : ℤ
  num_batt_crit : ℤ
  num_panels_full : ℤ
  num_panels_crit : ℤ
  inverter_continuous : ℤ
  inverter_surge : ℤ
  controller_current : ℤ
deriving DecidableEq

/-- The whole computation pipeline of streamlit_app.py lines 206-289 on a
normalized load list: energies, the two recommended_system calls, the two
battery_req calls, module counts, inverter and controller sizing. -/
def compute (cfg : Config) (loads : List LoadItem) : Except String SizingResult :=
  match recommended_system (E_total loads) cfg.ps_h cfg.eta_inv
          cfg.eta_batt_roundtrip cfg.eta_misc cfg.safety_margin,
        recommended_system (E_critical loads) cfg.ps_h cfg.eta_inv
          cfg.eta_batt_roundtrip cfg.eta_misc cfg.safety_margin,
        battery_req (E_total loads) cfg.autonomy_days cfg.eta_batt_roundtrip
          cfg.system_voltage,
        battery_req (E_critical loads) cfg.autonomy_days cfg.eta_batt_roundtrip
          cfg.system_voltage with
  | .ok (_, pvF), .ok (_, pvC), .ok (bwF, baF), .ok (bwC, baC) =>
      -- module_wh = preferred_batt_ah * system_voltage;
      -- usable_module_wh = module_wh * usable_dod  (lines 249-250)
      .ok { E_total := E_total loads
            E_critical := E_critical loads
            pv_watts_full := pvF
            pv_watts_crit := pvC
            bat_wh_full := bwF
            bat_ah_full := baF
            bat_wh_crit := bwC
            bat_ah_crit := baC
            num_batt_full := num_batt_modules bwF
              (cfg.preferred_batt_ah * cfg.system_voltage * cfg.usable_dod)
            num_batt_crit := num_batt_modules bwC
              (cfg.preferred_batt_ah * cfg.system_voltage * cfg.usable_dod)
            num_panels_full := num_panels pvF cfg.preferred_panel_w
            num_panels_crit := num_panels pvC cfg.preferred_panel_w
            inverter_continuous := inverter_continuous loads
            inverter_surge := inverter_surge loads
            controller_current := controller_current pvF cfg.system_voltage }
  | .error e, _, _, _ => .error e
  | _, .error e, _, _ => .error e
  | _, _, .error e, _ => .error e
  | _, _, _, .error e => .error e

/-- Replacement table of sanitize_text (utils.py lines 19-30). -/
def replacements : List (Char × List Char) :=
  [('≥', ['>','=']),
   ('≤', ['<','=']),
   ('°', [' ','d','e','g']),
   ('Ω', [' ','o','h','m']),
   ('µ', ['u']),
   ('×', ['x']),
   ('–', ['-']),
   ('—', ['-']),
   ('✔', ['[','O','K',']']),
   ('✘', ['[','X',']'])]

/-- Python str.replace for a single-character pattern: every occurrence of k
in the text is replaced by v. -/
def replaceChar (t : List Char) (k : Char) (v : List Char) : List Char :=
  t.flatMap (fun c => if c = k then v else [c])

/-- The replacement loop of sanitize_text (utils.py lines 31-32). -/
def applyReplacements (t : List Char) : List Char :=
  replacements.foldl (fun acc kv => replaceChar acc kv.1 kv.2) t

/-- sanitize_text (utils.py lines 8-33): `none` models a None/NaN input,
which returns the empty string; a string input goes through the replacement
table. -/
def sanitize_text (text : Option (List Char)) : List Char :=
  match text with
  | none => []
  | some s => applyReplacements s

/-- The substituted symbols: the keys of the replacement table. -/
def tableKeys : List Char := replacements.map Prod.fst

/-- The two loads of scenario 3 of the spec: one with surge_w = 500,
power_w = 100, qty = 1 and one with power_w = 50, qty = 2,
hours_per_day = 1, surge_w = 0. -/
def scenario3 : List LoadItem :=
  [{ power_w := 100, qty := 1, hours_per_day := 1, surge_w := 500, critical := false },
   { power_w := 50, qty := 2, hours_per_day := 1, surge_w := 0, critical := false }]

/-- The default configuration of the spec scenarios: 24 V, 5 peak sun
hours, 1 day autonomy, DoD 0.8, efficiencies 0.90 / 0.90 / 0.80, safety
1.15, 100 Ah battery modules, 360 W panels. -/
def defaultConfig : Config :=
  { system_voltage := 24, ps_h := 5, autonomy_days := 1, usable_dod := 4/5,
    eta_inv := 9/10, eta_batt_roundtrip := 9/10, eta_misc := 8/10,
    safety_margin := 23/20, preferred_batt_ah := 100, preferred_panel_w := 360 }

end SolarSizing

namespace SolarSizing

/-- Helper: on positive efficiencies and sun hours, recommended_system takes
no error branch and returns the two formula values. -/
theorem recommended_system_of_pos (E_wh ps_h eta_inv eta_batt eta_misc safety : ℚ)
    (h1 : 0 < eta_inv) (h2 : 0 < eta_batt) (h3 : 0 < ps_h) (h4 : 0 < eta_misc) :
    recommended_system E_wh ps_h eta_inv eta_batt eta_misc safety =
      .ok (E_wh / (eta_inv * eta_batt),
           E_wh / (eta_inv * eta_batt) / (ps_h * eta_misc) * safety) := by
  unfold recommended_system
  rw [if_neg (mul_pos h1 h2).ne', if_neg (mul_pos h3 h4).ne']

/-- Helper: on a nonzero battery efficiency and voltage, battery_req takes no
error branch. -/
theorem battery_req_of_ne (E_wh autonomy eta_batt Vsys : ℚ)
    (h1 : eta_batt ≠ 0) (h2 : Vsys ≠ 0) :
    battery_req E_wh autonomy eta_batt Vsys =
      .ok (E_wh * autonomy / eta_batt, E_wh * autonomy / eta_batt / Vsys) := by
  unfold battery_req
  rw [if_neg h1, if_neg h2]

/-- Helper: a ceiling-divided count is nonnegative and covers the required
capacity. -/
theorem ceil_div_covers (x m : ℚ) (hm : 0 < m) (hx : 0 ≤ x) :
    0 ≤ (⌈x / m⌉ : ℤ) ∧ x ≤ (⌈x / m⌉ : ℚ) * m := by
  constructor
  · exact Int.ceil_nonneg (div_nonneg hx hm.le)
  · have h := Int.le_ceil (x / m)
    calc x = x / m * m := (div_mul_cancel₀ x hm.ne').symm
      _ ≤ (⌈x / m⌉ : ℚ) * m := mul_le_mul_of_nonneg_right h hm.le

/-- Helper: the seed of a left max-fold bounds the fold from below. -/
theorem init_le_foldl_max (l : List ℚ) (i : ℚ) : i ≤ l.foldl max i := by
  induction l generalizing i with
  | nil => exact le_refl i
  | cons a t ih => exact le_trans (le_max_left i a) (ih (max i a))

/-- Helper: every member of a list bounds its left max-fold from below. -/
theorem mem_le_foldl_max (l : List ℚ) (x : ℚ) (hx : x ∈ l) (i : ℚ) :
    x ≤ l.foldl max i := by
  induction l generalizing i with
  | nil => cases hx
  | cons a t ih =>
    rcases List.mem_cons.mp hx with h | h
    · subst h
      exact le_trans (le_max_right i x) (init_le_foldl_max t (max i x))
    · exact ih h (max i a)

/-- Helper: a character of replaceChar t k v comes from the replacement
value or is a character of t other than k. -/
theorem mem_replaceChar {c : Char} {t : List Char} {k : Char} {v : List Char}
    (h : c ∈ replaceChar t k v) : c ∈ v ∨ (c ∈ t ∧ c ≠ k) := by
  obtain ⟨a, ha, hc⟩ := List.mem_flatMap.mp h
  by_cases hak : a = k
  · subst hak
    rw [if_pos rfl] at hc
    exact Or.inl hc
  · rw [if_neg hak] at hc
    rw [List.mem_singleton] at hc
    subst hc
    exact Or.inr ⟨ha, hak⟩

/-- Helper: folding a replacement table over a text eliminates every key of
K, provided no replacement value contains a key of K and every K-character
still present in the text is a key of a pair yet to be processed. -/
theorem foldl_replace_no_keys (K : List Char) (rs : List (Char × List Char))
    (hv : ∀ kv ∈ rs, ∀ c ∈ kv.2, c ∉ K) (t : List Char)
    (ht : ∀ c ∈ t, c ∈ K → c ∈ rs.map Prod.fst) :
    ∀ c ∈ rs.foldl (fun acc kv => replaceChar acc kv.1 kv.2) t, c ∉ K := by
  induction rs generalizing t with
  | nil =>
    intro c hc hK
    exact List.not_mem_nil c (ht c hc hK)
  | cons kv rest ih =>
    intro c hc
    rw [List.foldl_cons] at hc
    refine ih (fun kv2 h2 => hv kv2 (List.mem_cons_of_mem kv h2))
      (replaceChar t kv.1 kv.2) ?_ c hc
    intro d hd hdK
    rcases mem_replaceChar hd with h | ⟨hdt, hdk⟩
    · exact absurd hdK (hv kv (List.mem_cons_self kv rest) d h)
    · rcases List.mem_cons.mp (ht d hdt hdK) with h1 | h1
      · exact absurd h1 hdk
      · exact h1

/-- Helper: applyReplacements leaves no occurrence of any table key. -/
theorem applyReplacements_no_keys (s : List Char) :
    ∀ c ∈ applyReplacements s, c ∉ tableKeys := by
  refine foldl_replace_no_keys tableKeys replacements (by decide) s ?_
  intro c _ hc
  exact hc

/-- Helper: replacing a character that does not occur in the text leaves the
text unchanged. -/
theorem replaceChar_of_not_mem {t : List Char} {k : Char} {v : List Char}
    (h : k ∉ t) : replaceChar t k v = t := by
  induction t with
  | nil => rfl
  | cons a u ih =>
    have hak : a ≠ k := fun he => h (he ▸ List.mem_cons_self a u)
    have hku : k ∉ u := fun hk => h (List.mem_cons_of_mem a hk)
    show (if a = k then v else [a]) ++ replaceChar u k v = a :: u
    rw [if_neg hak, ih hku]
    rfl

/-- Helper: folding a replacement table whose keys are all absent from the
text is the identity. -/
theorem foldl_replace_fixed (rs : List (Char × List Char)) (t : List Char)
    (h : ∀ kv ∈ rs, kv.1 ∉ t) :
    rs.foldl (fun acc kv => replaceChar acc kv.1 kv.2) t = t := by
  induction rs with
  | nil => rfl
  | cons kv rest ih =>
    rw [List.foldl_cons, replaceChar_of_not_mem (h kv (List.mem_cons_self kv rest))]
    exact ih (fun kv2 h2 => h kv2 (List.mem_cons_of_mem kv h2))

end SolarSizing

namespace SolarSizing

/-- C1 counterexample: with a negative eta_inv (and the other three
parameters positive), recommended_system returns normally with the formula
values; it does not fail with any error, so in particular not with an
InvalidConfiguration error. -/
theorem c1_counterexample :
    recommended_system 100 5 (-9/10) (9/10) (8/10) (23/20) =
      .ok (-10000/81, -2875/81) := by
  norm_num [recommended_system]

/-- C1 (amended): recommended_system performs no validation of its
parameters. When eta_inv, eta_batt, ps_h, eta_misc are all > 0 it returns
normally with (E_from_panels, pv_watts) per the section 4.3 formula; when a
denominator product is zero it fails with a ZeroDivisionError, not an
InvalidConfiguration error; negative parameters that keep both denominators
nonzero return normally. -/
theorem c1_recommended_system_behaviour (E_wh ps_h eta_inv eta_batt eta_misc safety : ℚ) :
    (0 < eta_inv → 0 < eta_batt → 0 < ps_h → 0 < eta_misc →
      recommended_system E_wh ps_h eta_inv eta_batt eta_misc safety =
        .ok (E_wh / (eta_inv * eta_batt),
             E_wh / (eta_inv * eta_batt) / (ps_h * eta_misc) * safety)) ∧
    (eta_inv * eta_batt = 0 →
      recommended_system E_wh ps_h eta_inv eta_batt eta_misc safety =
        .error "ZeroDivisionError") := by
  constructor
  · intro h1 h2 h3 h4
    exact recommended_system_of_pos E_wh ps_h eta_inv eta_batt eta_misc safety h1 h2 h3 h4
  · intro h0
    unfold recommended_system
    rw [if_pos h0]

/-- C1 witness: the amended theorem applied at E_wh = 40 and the default
configuration values. -/
theorem c1_witness :
    recommended_system 40 5 (9/10) (9/10) (8/10) (23/20) =
      .ok (40 / (9/10 * (9/10)),
           40 / (9/10 * (9/10)) / (5 * (8/10)) * (23/20)) :=
  (c1_recommended_system_behaviour 40 5 (9/10) (9/10) (8/10) (23/20)).1
    (by norm_num) (by norm_num) (by norm_num) (by norm_num)

/-- C4 counterexample: a parseable negative numeric cell is not treated as
0 by the normalization; it passes through unchanged and the normalized
field is negative. -/
theorem c4_counterexample :
    normalize_numeric (some (-5)) = -5 ∧ ¬ (0 ≤ normalize_numeric (some (-5))) := by
  decide

/-- C4 (amended): numeric normalization turns a missing or unparseable cell
into 0 and passes every parseable value through unchanged; the normalized
field is therefore finite but not necessarily nonnegative, since negative
inputs are kept as they are rather than treated as 0. -/
theorem c4_normalize_numeric (q : ℚ) :
    normalize_numeric none = 0 ∧ normalize_numeric (some q) = q :=
  ⟨rfl, rfl⟩

/-- C6: the critical flag normalizes by lower-casing the textual form: a
case-insensitive match of true/yes/1 gives true, a case-insensitive match of
false/no/0 gives false, anything else gives false; boolean True gives true,
boolean False and a missing value give false. -/
theorem c6_critical_normalization (s : List Char) :
    (s.map Char.toLower ∈ trueKeys → normalize_critical (.strVal s) = true) ∧
    (s.map Char.toLower ∈ falseKeys → normalize_critical (.strVal s) = false) ∧
    (s.map Char.toLower ∉ trueKeys → s.map Char.toLower ∉ falseKeys →
      normalize_critical (.strVal s) = false) ∧
    normalize_critical (.boolVal true) = true ∧
    normalize_critical (.boolVal false) = false ∧
    normalize_critical .missing = false := by
  refine ⟨?_, ?_, ?_, by decide, by decide, by decide⟩
  · intro h
    unfold normalize_critical
    rw [if_pos h]
  · intro h
    unfold normalize_critical
    by_cases ht : s.map Char.toLower ∈ trueKeys
    · exfalso
      simp only [trueKeys, falseKeys, List.mem_cons, List.not_mem_nil, or_false] at ht h
      rcases ht with h1 | h1 | h1 <;> rcases h with h2 | h2 | h2 <;>
        rw [h1] at h2 <;> exact absurd h2 (by decide)
    · rw [if_neg ht, if_pos h]
  · intro h1 h2
    unfold normalize_critical
    rw [if_neg h1, if_neg h2]

/-- C6 witness: the theorem applied to the input "YeS", whose lower-casing
is in the true key set. -/
theorem c6_witness : normalize_critical (.strVal ['Y','e','S']) = true :=
  (c6_critical_normalization ['Y','e','S']).1 (by decide)

/-- C8 counterexample: the black star symbol cannot be encoded in Latin-1
(its code point exceeds 255) and is not in the replacement table, so
sanitize_text passes it through and the output still contains an
unencodable symbol. -/
theorem c8_counterexample :
    sanitize_text (some ['★']) = ['★'] ∧ ¬ (Char.toNat '★' ≤ 255) := by
  decide

/-- C8 (amended): sanitize_text substitutes exactly the ten symbols of its
fixed replacement table; for every input, its output contains none of those
ten table symbols. Non-ASCII symbols outside the table are not substituted
and may remain in the output. -/
theorem c8_sanitize_no_table_symbols (s : Option (List Char)) :
    ∀ c ∈ sanitize_text s, c ∉ tableKeys := by
  match s with
  | none =>
    intro c hc
    cases hc
  | some t =>
    exact applyReplacements_no_keys t

/-- C8 witness: the theorem applied to a string containing a table symbol;
the surviving replacement character is not a table symbol. -/
theorem c8_witness : ('>' : Char) ∉ tableKeys :=
  c8_sanitize_no_table_symbols (some ['≥','a']) '>' (by decide)

/-- C10: sanitize_text is idempotent: running the sanitized output through
sanitize_text again changes nothing, because no replacement value contains
a table symbol, so the second pass finds nothing to replace. -/
theorem c10_sanitize_idempotent (s : Option (List Char)) :
    sanitize_text (some (sanitize_text s)) = sanitize_text s := by
  show applyReplacements (sanitize_text s) = sanitize_text s
  apply foldl_replace_fixed
  intro kv hkv hmem
  have hkey : kv.1 ∈ tableKeys := List.mem_map_of_mem Prod.fst hkv
  cases s with
  | none => cases hmem
  | some t => exact applyReplacements_no_keys t kv.1 hmem hkey

end SolarSizing

namespace SolarSizing

/-- C2: for every valid configuration (positive preferred panel wattage and
positive usable module energy) and all nonnegative required capacities, the
four module counts are integers ≥ 0 and each count times its module capacity
covers the required capacity; nothing is rounded down. -/
theorem c2_module_counts (pvF pvC bwF bwC preferred_panel_w usable_module_wh : ℚ)
    (hp : preferred_panel_w > 0) (hu : usable_module_wh > 0)
    (h1 : 0 ≤ pvF) (h2 : 0 ≤ pvC) (h3 : 0 ≤ bwF) (h4 : 0 ≤ bwC) :
    (0 ≤ num_panels pvF preferred_panel_w ∧
      pvF ≤ (num_panels pvF preferred_panel_w : ℚ) * preferred_panel_w) ∧
    (0 ≤ num_panels pvC preferred_panel_w ∧
      pvC ≤ (num_panels pvC preferred_panel_w : ℚ) * preferred_panel_w) ∧
    (0 ≤ num_batt_modules bwF usable_module_wh ∧
      bwF ≤ (num_batt_modules bwF usable_module_wh : ℚ) * usable_module_wh) ∧
    (0 ≤ num_batt_modules bwC usable_module_wh ∧
      bwC ≤ (num_batt_modules bwC usable_module_wh : ℚ) * usable_module_wh) := by
  simp only [num_panels, num_batt_modules, if_pos hp, if_pos hu]
  exact ⟨ceil_div_covers pvF _ hp h1, ceil_div_covers pvC _ hp h2,
         ceil_div_covers bwF _ hu h3, ceil_div_covers bwC _ hu h4⟩

/-- C2 witness: the theorem applied at pv requirements 700 W and 15 W,
battery requirements 100 Wh and 0 Wh, 360 W panels and 1920 Wh usable
module energy. -/
theorem c2_witness :
    (0 ≤ num_panels 700 360 ∧ (700:ℚ) ≤ (num_panels 700 360 : ℚ) * 360) ∧
    (0 ≤ num_panels 15 360 ∧ (15:ℚ) ≤ (num_panels 15 360 : ℚ) * 360) ∧
    (0 ≤ num_batt_modules 100 1920 ∧
      (100:ℚ) ≤ (num_batt_modules 100 1920 : ℚ) * 1920) ∧
    (0 ≤ num_batt_modules 0 1920 ∧
      (0:ℚ) ≤ (num_batt_modules 0 1920 : ℚ) * 1920) :=
  c2_module_counts 700 15 100 0 360 1920 (by norm_num) (by norm_num)
    (by norm_num) (by norm_num) (by norm_num) (by norm_num)

/-- C5: on every non-empty load list the inverter surge rating is the
ceiling of the total continuous load plus the largest net surge, and on the
two loads of scenario 3 the continuous load is 200 W, the surge rating
600 W and the continuous rating 250 W. -/
theorem c5_inverter_sizing (l : List LoadItem) (h : l ≠ []) :
    inverter_surge l = ⌈continuous_load l + max_net_surge l⌉ ∧
    continuous_load scenario3 = 200 ∧
    inverter_surge scenario3 = 600 ∧
    inverter_continuous scenario3 = 250 := by
  refine ⟨?_, ?_, ?_, ?_⟩
  · cases l with
    | nil => exact absurd rfl h
    | cons a t => rfl
  · norm_num [continuous_load, scenario3]
  · norm_num [inverter_surge, continuous_load, max_net_surge, net_surge, scenario3]
  · norm_num [inverter_continuous, continuous_load, scenario3]

/-- C5 witness: the theorem applied to the scenario 3 load list itself. -/
theorem c5_witness :
    inverter_surge scenario3 = ⌈continuous_load scenario3 + max_net_surge scenario3⌉ ∧
    continuous_load scenario3 = 200 ∧
    inverter_surge scenario3 = 600 ∧
    inverter_continuous scenario3 = 250 :=
  c5_inverter_sizing scenario3 (by decide)

/-- C9: on a non-empty load list whose numeric fields are all nonnegative,
the inverter surge rating is at least the surge_w of every single item,
because the continuous load already covers each item's steady draw and the
largest net surge covers its transient excess. -/
theorem c9_surge_covers_each_item (l : List LoadItem) (h : l ≠ [])
    (hnn : ∀ x ∈ l, 0 ≤ x.power_w ∧ 0 ≤ x.qty ∧ 0 ≤ x.hours_per_day ∧ 0 ≤ x.surge_w) :
    ∀ x ∈ l, x.surge_w ≤ (inverter_surge l : ℚ) := by
  intro x hx
  have hcl : x.power_w * x.qty ≤ continuous_load l := by
    refine List.single_le_sum ?_ _
      (List.mem_map_of_mem (fun y => y.power_w * y.qty) hx)
    intro y hy
    obtain ⟨z, hz, rfl⟩ := List.mem_map.mp hy
    exact mul_nonneg (hnn z hz).1 (hnn z hz).2.1
  have hm : net_surge x ≤ max_net_surge l :=
    mem_le_foldl_max _ _ (List.mem_map_of_mem net_surge hx) 0
  have hns : x.surge_w - x.power_w * x.qty ≤ max_net_surge l :=
    le_trans (le_max_right 0 (x.surge_w - x.power_w * x.qty)) hm
  have hsum : x.surge_w ≤ continuous_load l + max_net_surge l := by
    linarith
  have hinv : inverter_surge l = ⌈continuous_load l + max_net_surge l⌉ := by
    cases l with
    | nil => exact absurd rfl h
    | cons a t => rfl
  rw [hinv]
  exact le_trans hsum (Int.le_ceil _)

/-- C9 witness: in scenario 3 the surge rating covers the 500 W surge of
the first load. -/
theorem c9_witness :
    ({ power_w := 100, qty := 1, hours_per_day := 1, surge_w := 500,
       critical := false } : LoadItem).surge_w ≤ (inverter_surge scenario3 : ℚ) :=
  c9_surge_covers_each_item scenario3 (by decide) (by decide) _ (by decide)

/-- C7: recommended_system is monotone in its energy argument: with positive
sun hours and efficiencies, a safety margin ≥ 1, nonnegative energies and
E_total ≥ E_critical, the full-load pv wattage is at least the critical-load
pv wattage. -/
theorem c7_pv_monotone (E_tot E_crit ps ei eb em s efF pvF efC pvC : ℚ)
    (h1 : 0 < ps) (h2 : 0 < ei) (h3 : 0 < eb) (h4 : 0 < em) (h5 : 1 ≤ s)
    (h6 : 0 ≤ E_crit) (h7 : E_crit ≤ E_tot)
    (hF : recommended_system E_tot ps ei eb em s = .ok (efF, pvF))
    (hC : recommended_system E_crit ps ei eb em s = .ok (efC, pvC)) :
    pvC ≤ pvF := by
  rw [recommended_system_of_pos E_tot ps ei eb em s h2 h3 h1 h4] at hF
  rw [recommended_system_of_pos E_crit ps ei eb em s h2 h3 h1 h4] at hC
  simp only [Except.ok.injEq, Prod.mk.injEq] at hF hC
  obtain ⟨-, hF2⟩ := hF
  obtain ⟨-, hC2⟩ := hC
  subst hF2
  subst hC2
  have hs : 0 ≤ s := le_trans zero_le_one h5
  gcongr

/-- C7 witness: the theorem applied at E_total = 40, E_critical = 0 and the
default configuration values. -/
theorem c7_witness :
    (0 : ℚ) / (9/10 * (9/10)) / (5 * (8/10)) * (23/20) ≤
      40 / (9/10 * (9/10)) / (5 * (8/10)) * (23/20) :=
  c7_pv_monotone 40 0 5 (9/10) (9/10) (8/10) (23/20)
    (40 / (9/10 * (9/10))) (40 / (9/10 * (9/10)) / (5 * (8/10)) * (23/20))
    (0 / (9/10 * (9/10))) (0 / (9/10 * (9/10)) / (5 * (8/10)) * (23/20))
    (by norm_num) (by norm_num) (by norm_num) (by norm_num) (by norm_num)
    (by norm_num) (by norm_num)
    (by norm_num [recommended_system]) (by norm_num [recommended_system])

end SolarSizing

namespace SolarSizing

/-- Helper: a zero battery requirement needs zero modules in both branches
of the count. -/
theorem num_batt_modules_zero (u : ℚ) : num_batt_modules 0 u = 0 := by
  unfold num_batt_modules
  split
  · rw [zero_div]
    exact Int.ceil_zero
  · rfl

/-- Helper: a zero pv requirement needs zero panels in both branches of the
count. -/
theorem num_panels_zero (w : ℚ) : num_panels 0 w = 0 := by
  unfold num_panels
  split
  · rw [zero_div]
    exact Int.ceil_zero
  · rfl

/-- Helper: a zero full-load pv wattage needs zero controller current in
both branches. -/
theorem controller_current_zero (V : ℚ) : controller_current 0 V = 0 := by
  unfold controller_current
  split
  · rw [zero_div, zero_div]
    exact Int.ceil_zero
  · rfl

/-- C3: on the empty load list and any valid configuration (positive sun
hours, efficiencies and system voltage), the pipeline raises no error and
returns zero for both energies, all four module counts, the inverter
continuous rating and the inverter surge rating (and every other output). -/
theorem c3_empty_load_list (cfg : Config)
    (h1 : 0 < cfg.ps_h) (h2 : 0 < cfg.eta_inv) (h3 : 0 < cfg.eta_batt_roundtrip)
    (h4 : 0 < cfg.eta_misc) (h5 : 0 < cfg.system_voltage) :
    compute cfg [] = .ok
      { E_total := 0, E_critical := 0, pv_watts_full := 0, pv_watts_crit := 0,
        bat_wh_full := 0, bat_ah_full := 0, bat_wh_crit := 0, bat_ah_crit := 0,
        num_batt_full := 0, num_batt_crit := 0, num_panels_full := 0,
        num_panels_crit := 0, inverter_continuous := 0, inverter_surge := 0,
        controller_current := 0 } := by
  have hr := recommended_system_of_pos 0 cfg.ps_h cfg.eta_inv cfg.eta_batt_roundtrip
    cfg.eta_misc cfg.safety_margin h2 h3 h1 h4
  have hb := battery_req_of_ne 0 cfg.autonomy_days cfg.eta_batt_roundtrip
    cfg.system_voltage h3.ne' h5.ne'
  rw [zero_div, zero_div, zero_mul] at hr
  rw [zero_mul, zero_div, zero_div] at hb
  have hE : E_total ([] : List LoadItem) = 0 := rfl
  have hEc : E_critical ([] : List LoadItem) = 0 := rfl
  unfold compute
  rw [hE, hEc, hr, hb]
  simp only [num_batt_modules_zero, num_panels_zero, controller_current_zero,
    inverter_surge, inverter_continuous, continuous_load, List.map_nil,
    List.sum_nil, List.isEmpty_nil, if_true, zero_mul, Int.ceil_zero, hE, hEc]

/-- C3 witness: the theorem applied at the default configuration. -/
theorem c3_witness :
    compute defaultConfig [] = .ok
      { E_total := 0, E_critical := 0, pv_watts_full := 0, pv_watts_crit := 0,
        bat_wh_full := 0, bat_ah_full := 0, bat_wh_crit := 0, bat_ah_crit := 0,
        num_batt_full := 0, num_batt_crit := 0, num_panels_full := 0,
        num_panels_crit := 0, inverter_continuous := 0, inverter_surge := 0,
        controller_current := 0 } :=
  c3_empty_load_list defaultConfig (by norm_num [defaultConfig])
    (by norm_num [defaultConfig]) (by norm_num [defaultConfig])
    (by norm_num [defaultConfig]) (by norm_num [defaultConfig])

end SolarSizing
